import Mathlib

/-!
Verification of the media-ingestion-and-frame-sampling pipeline and the
score-to-confidence calibration policy of the ml-service.

The Python source under `src/ml-service/app` is shallowly embedded here:
pure numeric code becomes functions over `ℝ` / `ℚ` / `ℕ`, fallible code
returns `Except`, and external effects (HTTP download, video decode,
filesystem) are passed in as explicit oracle parameters.
-/

namespace MLService

/-! ## Configuration (`app/config.py`, class `Settings`)

Only the fields the verified components read.  Rationals stand in for the
Python floats (`max_image_size_mb` is `10.0` by default; at the values the
pipeline compares, float arithmetic is exact). -/

structure Settings where
  max_image_size_mb : ℚ
  max_video_duration_seconds : ℕ
  max_frames_per_video : ℕ
deriving Repr, DecidableEq

/-- Default values from `config.py`. -/
def defaultSettings : Settings :=
  { max_image_size_mb := 10
    max_video_duration_seconds := 300
    max_frames_per_video := 20 }

/-! ## Confidence calibration (`app/models/cnn_detector.py`,
`CNNDetector._calculate_confidence`)

```python
distance = abs(score - 0.5) * 2
confidence = 0.5 + 0.5 * (distance**0.7)
return min(max(confidence, 0.3), 0.95)
```

Scores and confidences are real numbers; `**` is `Real.rpow`. -/

noncomputable def calculate_confidence (score : ℝ) : ℝ :=
  let distance : ℝ := |score - 0.5| * 2
  let confidence : ℝ := 0.5 + 0.5 * distance ^ (0.7 : ℝ)
  min (max confidence 0.3) 0.95

/-! ## Health endpoint (`app/routers/health.py`, `health_check`)

```python
models = []
if _detector is not None:
    models.append(ModelInfo(name=..., loaded=..., device=...))
status = "healthy" if all(m.loaded for m in models) else "degraded"
return HealthResponse(status=status, models=models)
```

The process-wide `_detector` reference is the `Option` argument. -/

structure ModelInfo where
  name : String
  loaded : Bool
  device : String
deriving Repr, DecidableEq

structure HealthResponse where
  status : String
  models : List ModelInfo
deriving Repr, DecidableEq

def health_check (detector : Option ModelInfo) : HealthResponse :=
  let models : List ModelInfo :=
    match detector with
    | none => []
    | some d => [d]
  { status := if models.all (fun m => m.loaded) then ("healthy") else ("degraded")
    models := models }

/-! ## Video frame extraction (`app/routers/video.py`, `extract_frames`)

The OpenCV capture is abstracted by its observable behaviour: whether the
file opened, the reported `fps` and frame count, and a decode oracle
`read : ℕ → Bool` saying whether `cap.read()` succeeds after seeking to a
given frame index.  A returned frame is represented by its source index
(its pixel payload plays no role in the verified properties). -/

inductive VideoError where
  /-- `HTTPException 400 "Could not open video file"`. -/
  | couldNotOpen : VideoError
  /-- `HTTPException 400 "Video too long"`. -/
  | videoTooLong : VideoError
  /-- Python `ZeroDivisionError` escaping `extract_frames`: an unmapped
  internal fault (500-equivalent), not an `HTTPException`. -/
  | zeroDivisionFault : VideoError
deriving Repr, DecidableEq

structure VideoMeta where
  /-- `cap.get(cv2.CAP_PROP_FPS)`. -/
  fps : ℚ
  /-- `int(cap.get(cv2.CAP_PROP_FRAME_COUNT))`, reported as nonnegative. -/
  total_frames : ℕ
deriving Repr, DecidableEq

structure ExtractResult where
  /-- source index of each returned encoded frame, in iteration order -/
  frame_indices : List ℕ
  fps : ℚ
  duration : ℚ
  total_frames : ℕ
  extracted_count : ℕ
deriving Repr, DecidableEq

/-- Python `range(0, stop, step)` for `step > 0`. -/
def pyRange (stop step : ℕ) : List ℕ :=
  List.range' 0 ((stop + step - 1) / step) step

/-- The sampling loop body: walk the candidate indices, breaking as soon
as `remaining` reaches zero (`len(frames_base64) >= actual_max_frames`),
skipping indices whose decode fails (`if not ret: continue`). -/
def sampleLoop (read : ℕ → Bool) : ℕ → List ℕ → List ℕ
  | _, [] => []
  | remaining, i :: rest =>
    if remaining = 0 then []
    else if read i then i :: sampleLoop read (remaining - 1) rest
    else sampleLoop read remaining rest

/-- Embedding of `extract_frames(video_path, max_frames)`.

`opened` is `cap.isOpened()`.  Python evaluates
`total_frames // actual_max_frames` unconditionally; when
`actual_max_frames == 0` that raises `ZeroDivisionError`, modelled by the
explicit zero test (Lean's `Nat` division would silently yield `0`). -/
def extract_frames (settings : Settings) (opened : Bool) (meta : VideoMeta)
    (read : ℕ → Bool) (max_frames : ℕ) : Except VideoError ExtractResult :=
  if opened = false then .error .couldNotOpen
  else
    let fps := meta.fps
    let total_frames := meta.total_frames
    let duration : ℚ := if fps > 0 then (total_frames : ℚ) / fps else 0
    if duration > (settings.max_video_duration_seconds : ℚ) then
      .error .videoTooLong
    else
      let actual_max_frames :=
        min (min max_frames settings.max_frames_per_video) total_frames
      if actual_max_frames = 0 then .error .zeroDivisionFault
      else
        let frame_interval := max 1 (total_frames / actual_max_frames)
        let idx := sampleLoop read actual_max_frames (pyRange total_frames frame_interval)
        .ok { frame_indices := idx
              fps := fps
              duration := duration
              total_frames := total_frames
              extracted_count := idx.length }

/-- Decidable equality of `Except` results, for evaluating the embedding
on concrete inputs. -/
instance instDecEqExcept {e a : Type} [DecidableEq e] [DecidableEq a] :
    DecidableEq (Except e a) := fun x y =>
  match x, y with
  | .error e1, .error e2 =>
    if h : e1 = e2 then isTrue (by rw [h])
    else isFalse (fun hc => h (Except.error.inj hc))
  | .ok a1, .ok a2 =>
    if h : a1 = a2 then isTrue (by rw [h])
    else isFalse (fun hc => h (Except.ok.inj hc))
  | .error _, .ok _ => isFalse (fun hc => Except.noConfusion hc)
  | .ok _, .error _ => isFalse (fun hc => Except.noConfusion hc)

/-- The effective frame budget `n = min(requestedMax, maxFramesPerVideo,
totalFrames)` of the sampler. -/
def effectiveMax (settings : Settings) (meta : VideoMeta) (max_frames : ℕ) : ℕ :=
  min (min max_frames settings.max_frames_per_video) meta.total_frames

/-- The stride `interval = max(1, totalFrames // n)` of the sampler. -/
def strideOf (settings : Settings) (meta : VideoMeta) (max_frames : ℕ) : ℕ :=
  max 1 (meta.total_frames / effectiveMax settings meta max_frames)

/-! ## Image detection endpoint (`app/routers/image.py`)

`download_image` is modelled over the observable HTTP response (declared
content type, optional content-length header, actual body size, and
whether `PIL.Image.open` succeeds on the body); the endpoint handler
`detect_image` takes the outcome of the image-loading stage and of the
detection stage as oracle arguments, so that a result independent of
those arguments is a result produced before any network or disk I/O. -/

inductive ImageError where
  /-- `HTTPException 503 "Model not loaded"`. -/
  | modelNotLoaded : ImageError
  /-- `HTTPException 400 "Provide either image_url or image_base64, not both"`. -/
  | bothInputs : ImageError
  /-- `HTTPException 400 "Must provide either image_url or image_base64"`. -/
  | missingInput : ImageError
  /-- `HTTPException 400` from the download HTTP status or transport. -/
  | downloadFailed : ImageError
  /-- `HTTPException 400 "URL does not point to an image"`. -/
  | wrongContentType : ImageError
  /-- `HTTPException 400 "Image too large"`. -/
  | tooLarge : ImageError
  /-- `HTTPException 400` invalid image data / invalid base64. -/
  | invalidImage : ImageError
  /-- `HTTPException 500 "Detection failed"`. -/
  | detectionFailed : ImageError
deriving Repr, DecidableEq

/-- Response record of `/api/detect/image`. -/
structure ImageDetectResponse where
  score : ℝ
  confidence : ℝ
  model : String

/-- Observable part of the HTTP response consumed by `download_image`. -/
structure HttpImageResponse where
  /-- `response.headers.get("content-type", "")` -/
  content_type : String
  /-- value of the content-length header when present -/
  content_length : Option ℕ
  /-- actual number of bytes in `response.content` -/
  body_size : ℕ
  /-- whether `PIL.Image.open` succeeds on the body -/
  decodes : Bool
deriving Repr, DecidableEq

/-- Python `int()` applied to a rational: truncation toward zero. -/
def pyIntTrunc (q : ℚ) : ℤ := if 0 ≤ q then ⌊q⌋ else ⌈q⌉

/-- Character-level test that `pre` is an initial segment of `s`. -/
def strHasPre (pre s : List Char) : Bool :=
  match pre, s with
  | [], _ => true
  | _ :: _, [] => false
  | p :: ps, c :: cs => (p == c) && strHasPre ps cs

/-- Python `s.startswith(pre)` over the characters of the strings. -/
def pyStartsWith (s pre : String) : Bool := strHasPre pre.data s.data

/-- Embedding of `download_image(url)` after a successful GET:

```python
content_type = response.headers.get("content-type", "")
if not content_type.startswith("image/"): raise 400
content_length = int(response.headers.get("content-length", 0))
max_size = int(settings.max_image_size_mb * 1024 * 1024)
if content_length > max_size: raise 400 "Image too large"
try: return Image.open(io.BytesIO(response.content))
except: raise 400 "Invalid image data"
```

Only the declared header — never `body_size` — feeds the size gate. -/
def download_image (settings : Settings) (resp : HttpImageResponse) :
    Except ImageError Unit :=
  if pyStartsWith resp.content_type ("image/") = false then
    .error .wrongContentType
  else
    let content_length : ℤ := (resp.content_length.getD 0 : ℕ)
    let max_size : ℤ := pyIntTrunc (settings.max_image_size_mb * 1024 * 1024)
    if content_length > max_size then .error .tooLarge
    else if resp.decodes then .ok () else .error .invalidImage

/-- Python truthiness of an `Optional[str]` field: `None` and the empty
string are falsy, any other string is truthy. -/
def truthy (o : Option String) : Bool :=
  match o with
  | none => false
  | some s => !(s == "")

/-- Sequencing of the image-loading stage and the detection stage of the
handler: a loading failure propagates, otherwise the detection outcome is
returned. -/
def runDetection (load_image : Except ImageError Unit)
    (detection : Except ImageError ImageDetectResponse) :
    Except ImageError ImageDetectResponse :=
  match load_image with
  | .error e => .error e
  | .ok _ => detection

/-- Embedding of the `detect_image` handler:

```python
if _detector is None: raise 503
if request.image_url and request.image_base64: raise 400 (both)
if not request.image_url and not request.image_base64: raise 400 (missing)
image = await download_image(...) if request.image_url else decode_base64_image(...)
try: result = _detector.detect(image)
except: raise 500
```

The loading and detection stages are oracle arguments. -/
def detect_image (detectorLoaded : Bool)
    (image_url image_base64 : Option String)
    (load_image : Except ImageError Unit)
    (detection : Except ImageError ImageDetectResponse) :
    Except ImageError ImageDetectResponse :=
  if detectorLoaded = false then .error .modelNotLoaded
  else if truthy image_url && truthy image_base64 then .error .bothInputs
  else if !truthy image_url && !truthy image_base64 then .error .missingInput
  else runDetection load_image detection

/-! ## Request model (`app/routers/video.py`, `ExtractFramesRequest`)

`max_frames: int = Field(default=20, ge=1, le=60)` — pydantic supplies
the default when the field is omitted and rejects an out-of-range value
with a 422 validation error. -/

inductive FieldError where
  /-- pydantic 422 `ValidationError` for a violated `ge`/`le` bound -/
  | outOfRange : FieldError
deriving Repr, DecidableEq

/-- Boundary validation of the caller-supplied `max_frames` value. -/
def validate_max_frames (supplied : Option ℤ) : Except FieldError ℤ :=
  match supplied with
  | none => .ok 20
  | some v => if 1 ≤ v ∧ v ≤ 60 then .ok v else .error .outOfRange

/-! ## Video endpoint orchestration (`app/routers/video.py`,
`extract_video_frames`)

The handler downloads to a temporary file, extracts frames, and removes
the file in a `finally` block:

```python
finally:
    if video_path and os.path.exists(video_path):
        try: os.unlink(video_path)
        except Exception: pass
```

Oracles: the download outcome (an `ok` path means the temporary file was
created at that path), the extraction outcome per path, whether the file
still exists at cleanup time, and whether `os.unlink` succeeds.  The
second component of the result records whether the temporary file was
actually removed. -/

inductive ReqError where
  /-- `HTTPException 400` raised inside `download_video` -/
  | downloadFailed : ReqError
  /-- failure escaping `extract_frames` -/
  | extractFailed (e : VideoError) : ReqError
  /-- `OSError` from `os.unlink` -/
  | unlinkFailed : ReqError
deriving Repr, DecidableEq

/-- The primary outcome of the handler body (download then extract),
before the `finally` block runs. -/
def bodyResult (download : Except ReqError String)
    (extract : String → Except VideoError ExtractResult) :
    Except ReqError ExtractResult :=
  match download with
  | .error e => .error e
  | .ok p =>
    match extract p with
    | .error e => .error (.extractFailed e)
    | .ok r => .ok r

/-- The `finally` block: delete the temporary file if a path was recorded
and the file still exists, swallowing any deletion failure
(`except Exception: pass`).  Returns the block's own outcome — always
`ok` — and whether the file was removed. -/
def cleanupTemp (video_path : Option String) (file_exists : String → Bool)
    (unlink : String → Except ReqError Unit) :
    Except ReqError Unit × Bool :=
  match video_path with
  | none => (.ok (), false)
  | some p =>
    if file_exists p then
      match unlink p with
      | .ok _ => (.ok (), true)
      | .error _ => (.ok (), false)
    else (.ok (), false)

/-- Python `try/finally` semantics: an exception raised by the `finally`
block replaces the body's outcome; otherwise the body's outcome stands. -/
def tryFinally {α : Type} (body : Except ReqError α)
    (final : Except ReqError Unit) : Except ReqError α :=
  match final with
  | .error e => .error e
  | .ok _ => body

/-- Embedding of the `extract_video_frames` handler.  Returns the
response delivered to the caller and whether the temporary file was
removed. -/
def extract_video_frames (download : Except ReqError String)
    (extract : String → Except VideoError ExtractResult)
    (file_exists : String → Bool)
    (unlink : String → Except ReqError Unit) :
    Except ReqError ExtractResult × Bool :=
  let video_path : Option String :=
    match download with
    | .ok p => some p
    | .error _ => none
  let fin := cleanupTemp video_path file_exists unlink
  (tryFinally (bodyResult download extract) fin.1, fin.2)

/-- The concrete scenario of the spec: `totalFrames=100`, `fps=10`,
`requestedMax=20`, default limits. -/
def scenarioExtractResult : ExtractResult :=
  { frame_indices := [0, 5, 10, 15, 20, 25, 30, 35, 40, 45,
                      50, 55, 60, 65, 70, 75, 80, 85, 90, 95]
    fps := 10
    duration := 10
    total_frames := 100
    extracted_count := 20 }

end MLService

namespace MLService

/-! ## Theorems about the confidence calibration -/

/-- Helper: `calculate_confidence` with its local bindings expanded. -/
theorem calculate_confidence_eq (s : ℝ) :
    calculate_confidence s =
      min (max (0.5 + 0.5 * (|s - 0.5| * 2) ^ (0.7 : ℝ)) 0.3) 0.95 := rfl

/-- Helper: the pre-clamp calibration value is at least `0.5`. -/
theorem preclamp_ge_half (s : ℝ) :
    (0.5 : ℝ) ≤ 0.5 + 0.5 * (|s - 0.5| * 2) ^ (0.7 : ℝ) := by
  have h0 : (0 : ℝ) ≤ |s - 0.5| * 2 := by positivity
  have h1 : (0 : ℝ) ≤ (|s - 0.5| * 2) ^ (0.7 : ℝ) := Real.rpow_nonneg h0 _
  nlinarith

/-- C1 counterexample: at score `0.5` the calibrated confidence is `0.5`,
not the claimed `0.3`. -/
theorem calibrate_half_ne_claimed :
    calculate_confidence 0.5 = 0.5 ∧ (0.5 : ℝ) ≠ 0.3 := by
  constructor
  · rw [calculate_confidence_eq]
    have habs : |(0.5 : ℝ) - 0.5| * 2 = 0 := by norm_num
    rw [habs, Real.zero_rpow (by norm_num)]
    norm_num
  · norm_num

/-- C1 (amended): the calibration maps score `0.5` to confidence `0.5`
(the lower clamp bound `0.3` is not attained there), and maps scores `0.0`
and `1.0` each to confidence exactly `0.95`. -/
theorem calibrate_fixed_points :
    calculate_confidence 0.5 = 0.5 ∧
    calculate_confidence 0 = 0.95 ∧
    calculate_confidence 1 = 0.95 := by
  refine ⟨?_, ?_, ?_⟩
  · rw [calculate_confidence_eq]
    have habs : |(0.5 : ℝ) - 0.5| * 2 = 0 := by norm_num
    rw [habs, Real.zero_rpow (by norm_num)]
    norm_num
  · rw [calculate_confidence_eq]
    have habs : |(0 : ℝ) - 0.5| * 2 = 1 := by
      rw [abs_of_nonpos (by norm_num)]
      norm_num
    rw [habs, Real.one_rpow]
    norm_num
  · rw [calculate_confidence_eq]
    have habs : |(1 : ℝ) - 0.5| * 2 = 1 := by
      rw [abs_of_nonneg (by norm_num)]
      norm_num
    rw [habs, Real.one_rpow]
    norm_num

/-- C9: for every raw score `s ∈ [0,1]` the calibrated confidence lies in
`[0.5, 0.95]`; the pre-clamp value `0.5 + 0.5 * (2*|s-0.5|)^0.7` is never
below `0.5`, so the lower clamp at `0.3` never determines the result. -/
theorem calibrate_range (s : ℝ) (_h0 : 0 ≤ s) (_h1 : s ≤ 1) :
    (0.5 : ℝ) ≤ 0.5 + 0.5 * (|s - 0.5| * 2) ^ (0.7 : ℝ) ∧
    0.5 ≤ calculate_confidence s ∧ calculate_confidence s ≤ 0.95 := by
  have hpre := preclamp_ge_half s
  refine ⟨hpre, ?_, ?_⟩
  · rw [calculate_confidence_eq]
    have hmax : (0.5 : ℝ) ≤ max (0.5 + 0.5 * (|s - 0.5| * 2) ^ (0.7 : ℝ)) 0.3 :=
      le_trans hpre (le_max_left _ _)
    exact le_min hmax (by norm_num)
  · rw [calculate_confidence_eq]
    exact min_le_right _ _

/-- C9 witness: the range theorem instantiated at score `0`. -/
theorem calibrate_range_witness :
    (0 : ℝ) ≤ 0 ∧ (0 : ℝ) ≤ 1 ∧
    ((0.5 : ℝ) ≤ 0.5 + 0.5 * (|(0 : ℝ) - 0.5| * 2) ^ (0.7 : ℝ) ∧
     0.5 ≤ calculate_confidence 0 ∧ calculate_confidence 0 ≤ 0.95) :=
  ⟨le_refl 0, by norm_num, calibrate_range 0 (le_refl 0) (by norm_num)⟩

/-! ## Theorems about video frame extraction -/

/-- Helper: the sampling loop keeps the first `n` successfully decoded
candidate indices. -/
theorem sampleLoop_eq_take_filter (read : ℕ → Bool) :
    ∀ (l : List ℕ) (n : ℕ), sampleLoop read n l = (l.filter read).take n := by
  intro l
  induction l with
  | nil => intro n; simp [sampleLoop]
  | cons i rest ih =>
    intro n
    cases n with
    | zero => simp [sampleLoop]
    | succ m =>
      by_cases h : read i
      · simp [sampleLoop, h, ih]
      · simp [sampleLoop, h, ih]

/-- Helper: inversion for a successful `extract_frames` run: the returned
indices come from the sampling loop at the effective budget and stride,
and `extracted_count` is their number. -/
theorem extract_frames_ok_elim (settings : Settings) (meta : VideoMeta)
    (read : ℕ → Bool) (mf : ℕ) (r : ExtractResult)
    (hok : extract_frames settings true meta read mf = .ok r) :
    r.frame_indices =
      sampleLoop read (effectiveMax settings meta mf)
        (pyRange meta.total_frames (strideOf settings meta mf)) ∧
    r.extracted_count = r.frame_indices.length := by
  unfold extract_frames at hok
  simp only [Bool.true_eq_false, if_false] at hok
  split at hok <;> split at hok <;> try exact Except.noConfusion hok
  all_goals split at hok
  all_goals try exact Except.noConfusion hok
  all_goals rw [Except.ok.injEq] at hok
  all_goals subst hok
  all_goals exact ⟨rfl, rfl⟩

/-- C2: a container reporting `totalFrames == 0` does not yield an empty
frame sequence; the effective budget is `0` and the stride computation
`total_frames // actual_max_frames` raises `ZeroDivisionError`, an
unmapped internal fault reaching the caller. -/
theorem extract_frames_zero_total_fault :
    extract_frames defaultSettings true ⟨10, 0⟩ (fun _ => true) 20 =
      .error .zeroDivisionFault ∧
    ∀ r, extract_frames defaultSettings true ⟨10, 0⟩ (fun _ => true) 20 ≠ .ok r := by
  have hfault : extract_frames defaultSettings true ⟨10, 0⟩ (fun _ => true) 20 =
      .error .zeroDivisionFault := by
    unfold extract_frames
    norm_num [defaultSettings]
  refine ⟨hfault, ?_⟩
  intro r h
  rw [hfault] at h
  exact Except.noConfusion h

/-- C3: whenever extraction succeeds, the returned indices are exactly the
first `n` decodable candidates among `0, interval, 2*interval, …` with
`n = min(requestedMax, maxFramesPerVideo, totalFrames)` and
`interval = max(1, totalFrames // n)`; moreover the concrete
scenario of the spec (`totalFrames=100, fps=10, requestedMax=20`, default limits)
returns exactly the indices `[0,5,…,95]` with `extracted_count = 20`. -/
theorem extract_frames_stride :
    (∀ (settings : Settings) (meta : VideoMeta) (read : ℕ → Bool)
        (mf : ℕ) (r : ExtractResult),
        extract_frames settings true meta read mf = .ok r →
        r.frame_indices =
          ((pyRange meta.total_frames (strideOf settings meta mf)).filter read).take
            (effectiveMax settings meta mf)) ∧
    extract_frames defaultSettings true ⟨10, 100⟩ (fun _ => true) 20 =
      .ok scenarioExtractResult := by
  constructor
  · intro settings meta read mf r hok
    rw [(extract_frames_ok_elim settings meta read mf r hok).1]
    exact sampleLoop_eq_take_filter read _ _
  · unfold extract_frames
    norm_num [defaultSettings]
    rfl

/-- C3 witness: the stride characterization applied to the concrete
scenario, its success hypothesis discharged by the scenario itself. -/
theorem extract_frames_stride_witness :
    scenarioExtractResult.frame_indices =
      ((pyRange (100 : ℕ) (strideOf defaultSettings ⟨10, 100⟩ 20)).filter
          (fun _ => true)).take (effectiveMax defaultSettings ⟨10, 100⟩ 20) :=
  extract_frames_stride.1 defaultSettings ⟨10, 100⟩ (fun _ => true) 20
    scenarioExtractResult extract_frames_stride.2

/-- C6: on every successful extraction, `extracted_count` equals the
length of the returned frame sequence and is bounded by
`min(requestedMax, maxFramesPerVideo, totalFrames)`. -/
theorem extract_frames_count_bound (settings : Settings) (meta : VideoMeta)
    (read : ℕ → Bool) (mf : ℕ) (r : ExtractResult)
    (hok : extract_frames settings true meta read mf = .ok r) :
    r.extracted_count = r.frame_indices.length ∧
    r.extracted_count ≤ min (min mf settings.max_frames_per_video) meta.total_frames := by
  obtain ⟨hidx, hcount⟩ := extract_frames_ok_elim settings meta read mf r hok
  refine ⟨hcount, ?_⟩
  rw [hcount, hidx, sampleLoop_eq_take_filter]
  exact List.length_take_le _ _

/-- C6 witness: the count bound at the concrete scenario. -/
theorem extract_frames_count_bound_witness :
    scenarioExtractResult.extracted_count =
      scenarioExtractResult.frame_indices.length ∧
    scenarioExtractResult.extracted_count ≤ min (min 20 20) 100 :=
  extract_frames_count_bound defaultSettings ⟨10, 100⟩ (fun _ => true) 20
    scenarioExtractResult
    (by unfold extract_frames; norm_num [defaultSettings]; rfl)

/-! ## Theorems about the image endpoint -/

/-- C4 counterexample: a request supplying `image_url` as the empty
string and omitting `image_base64` provides exactly one of the two
fields, yet input validation rejects it with the missing-input error
(Python truthiness treats the empty string as absent). -/
theorem detect_image_empty_url_rejected :
    (some ("") : Option String).isSome = true ∧
    (none : Option String).isSome = false ∧
    detect_image true (some ("")) none (.ok ()) (.error .detectionFailed) =
      .error .missingInput := by
  refine ⟨rfl, rfl, ?_⟩
  simp [detect_image, truthy]

/-- C4 (amended): with the detector loaded, a request whose two input
fields are both non-empty, or both empty-or-absent, fails with the
corresponding ambiguous-or-missing-input validation error whatever the
loading and detection oracles return (so before any network or disk
I/O); when exactly one field is non-empty this validation passes and the
handler proceeds to the loading and detection stages.  An empty string
behaves as an absent field. -/
theorem detect_image_input_validation (u b : Option String)
    (f : Except ImageError Unit) (d : Except ImageError ImageDetectResponse) :
    (truthy u = true → truthy b = true →
      detect_image true u b f d = .error .bothInputs) ∧
    (truthy u = false → truthy b = false →
      detect_image true u b f d = .error .missingInput) ∧
    (truthy u ≠ truthy b →
      detect_image true u b f d = runDetection f d) := by
  refine ⟨?_, ?_, ?_⟩
  · intro hu hb
    simp [detect_image, hu, hb]
  · intro hu hb
    simp [detect_image, hu, hb]
  · intro hne
    cases hu : truthy u with
    | true =>
      have hb : truthy b = false := by
        cases hbv : truthy b
        · rfl
        · exact absurd (hu.trans hbv.symm) hne
      simp [detect_image, hu, hb]
    | false =>
      have hb : truthy b = true := by
        cases hbv : truthy b
        · exact absurd (hu.trans hbv.symm) hne
        · rfl
      simp [detect_image, hu, hb]

/-- C4 witness: a URL-only request passes validation and reaches the
loading/detection stages. -/
theorem detect_image_input_validation_witness :
    truthy (some ("http://example.com/a.png")) ≠ truthy (none : Option String) ∧
    detect_image true (some ("http://example.com/a.png")) none (.ok ())
        (.error .detectionFailed) =
      runDetection (.ok ()) (.error .detectionFailed) :=
  ⟨by decide,
   (detect_image_input_validation (some ("http://example.com/a.png")) none
      (.ok ()) (.error .detectionFailed)).2.2 (by decide)⟩

/-- C8: after a successful GET whose declared type is an image, the
too-large error fires iff a content-length header is present and its
value exceeds `int(max_image_size_mb * 1024 * 1024)` — never depending
on the decode stage or the body — and with no content-length header the
size gate is a no-op: the body goes on to decoding whatever its actual
size. -/
theorem download_image_size_gate (settings : Settings)
    (resp : HttpImageResponse)
    (hct : pyStartsWith resp.content_type ("image/") = true)
    (hmb : 0 ≤ settings.max_image_size_mb) :
    (download_image settings resp = .error .tooLarge ↔
      ∃ n, resp.content_length = some n ∧
        (n : ℤ) > pyIntTrunc (settings.max_image_size_mb * 1024 * 1024)) ∧
    (resp.content_length = none →
      download_image settings resp =
        if resp.decodes then .ok () else .error .invalidImage) := by
  have hq : (0 : ℚ) ≤ settings.max_image_size_mb * 1024 * 1024 := by positivity
  have hM : (0 : ℤ) ≤ pyIntTrunc (settings.max_image_size_mb * 1024 * 1024) := by
    unfold pyIntTrunc
    rw [if_pos hq]
    exact Int.floor_nonneg.mpr hq
  have hgate : download_image settings resp = .error .tooLarge ↔
      ((resp.content_length.getD 0 : ℕ) : ℤ) >
        pyIntTrunc (settings.max_image_size_mb * 1024 * 1024) := by
    unfold download_image
    rw [hct]
    simp only [Bool.true_eq_false, if_false]
    by_cases hgt : ((resp.content_length.getD 0 : ℕ) : ℤ) >
        pyIntTrunc (settings.max_image_size_mb * 1024 * 1024)
    · rw [if_pos hgt]
      simp [hgt]
    · rw [if_neg hgt]
      simp only [hgt, iff_false]
      cases resp.decodes <;> simp
  constructor
  · rw [hgate]
    cases hcl : resp.content_length with
    | none =>
      simp only [hcl, Option.getD_none]
      constructor
      · intro h
        exact absurd h (by push_cast; omega)
      · rintro ⟨n, hn, _⟩
        exact Option.noConfusion hn
    | some n =>
      simp only [hcl, Option.getD_some]
      constructor
      · intro h
        exact ⟨n, rfl, h⟩
      · rintro ⟨m, hm, hgt⟩
        rw [Option.some.injEq] at hm
        rw [hm]
        exact hgt
  · intro hcl
    unfold download_image
    rw [hct]
    simp only [Bool.true_eq_false, if_false, hcl, Option.getD_none]
    rw [if_neg (by push_cast; omega)]

/-- C8 witness: with the default 10 MB limit, a declared content length
of 20,000,000 bytes trips the too-large gate. -/
theorem download_image_size_gate_witness :
    (pyStartsWith ("image/png") ("image/") = true) ∧
    ((0 : ℚ) ≤ defaultSettings.max_image_size_mb) ∧
    (download_image defaultSettings
        ⟨"image/png", some 20000000, 20000000, true⟩ = .error .tooLarge ↔
      ∃ n, (some 20000000 : Option ℕ) = some n ∧
        (n : ℤ) > pyIntTrunc (defaultSettings.max_image_size_mb * 1024 * 1024)) :=
  ⟨by decide, by norm_num [defaultSettings],
   (download_image_size_gate defaultSettings
      ⟨"image/png", some 20000000, 20000000, true⟩ (by decide)
      (by norm_num [defaultSettings])).1⟩

/-! ## Theorems about the request model -/

/-- C7 counterexample: a caller-supplied `max_frames` of `61` is
rejected with a validation error, not clamped to the bound `60`. -/
theorem validate_max_frames_not_clamped :
    validate_max_frames (some 61) = .error .outOfRange ∧
    validate_max_frames (some 61) ≠ .ok 60 := by
  constructor
  · decide
  · decide

/-- C7 (amended): the boundary layer defaults an omitted `max_frames` to
`20`, accepts a supplied value unchanged exactly when it lies in
`[1, 60]`, and rejects any out-of-range value with a validation error —
so every value that reaches the frame sampler lies in `[1, 60]`. -/
theorem validate_max_frames_bounds :
    validate_max_frames none = .ok 20 ∧
    (∀ v n, validate_max_frames (some v) = .ok n → n = v ∧ 1 ≤ n ∧ n ≤ 60) ∧
    (∀ v : ℤ, v < 1 ∨ 60 < v →
      validate_max_frames (some v) = .error .outOfRange) := by
  refine ⟨rfl, ?_, ?_⟩
  · intro v n h
    simp only [validate_max_frames] at h
    by_cases hin : 1 ≤ v ∧ v ≤ 60
    · rw [if_pos hin] at h
      rw [Except.ok.injEq] at h
      subst h
      exact ⟨rfl, hin.1, hin.2⟩
    · rw [if_neg hin] at h
      exact Except.noConfusion h
  · intro v hv
    simp only [validate_max_frames]
    rcases hv with hv | hv
    · rw [if_neg (by omega)]
    · rw [if_neg (by omega)]

/-- C7 witness: the in-range value `30` passes through unchanged and the
out-of-range value `0` is rejected. -/
theorem validate_max_frames_bounds_witness :
    ((30 : ℤ) = 30 ∧ (1 : ℤ) ≤ 30 ∧ (30 : ℤ) ≤ 60) ∧
    validate_max_frames (some 0) = .error .outOfRange :=
  ⟨validate_max_frames_bounds.2.1 30 30 (by decide),
   validate_max_frames_bounds.2.2 0 (Or.inl (by decide))⟩

/-! ## Theorems about the video handler cleanup -/

/-- C5: the handler response always equals the primary body outcome —
deletion failure and an already-deleted file are swallowed and never
mask it — and whenever the download step created the temporary file, the
file still exists at cleanup time and deletion succeeds, the file is
removed before the handler returns, whatever the extraction stage did. -/
theorem extract_video_frames_cleanup
    (download : Except ReqError String)
    (extract : String → Except VideoError ExtractResult)
    (file_exists : String → Bool)
    (unlink : String → Except ReqError Unit) :
    (extract_video_frames download extract file_exists unlink).1 =
      bodyResult download extract ∧
    (∀ p, download = .ok p → file_exists p = true → unlink p = .ok () →
      (extract_video_frames download extract file_exists unlink).2 = true) := by
  constructor
  · cases hdl : download with
    | error e =>
      simp [extract_video_frames, cleanupTemp, tryFinally, hdl]
    | ok p =>
      cases hfe : file_exists p with
      | false =>
        simp [extract_video_frames, cleanupTemp, tryFinally, hdl, hfe]
      | true =>
        cases hul : unlink p with
        | error e =>
          simp [extract_video_frames, cleanupTemp, tryFinally, hdl, hfe, hul]
        | ok u =>
          simp [extract_video_frames, cleanupTemp, tryFinally, hdl, hfe, hul]
  · intro p hdl hfe hul
    simp [extract_video_frames, cleanupTemp, hdl, hfe, hul]

/-- C5 witness: a created file that exists at cleanup with a working
deletion is removed, and the response is the body outcome. -/
theorem extract_video_frames_cleanup_witness :
    ((extract_video_frames (.ok ("/tmp/tmpabc.mp4"))
        (fun _ => .ok scenarioExtractResult) (fun _ => true)
        (fun _ => .ok ())).1 =
      bodyResult (.ok ("/tmp/tmpabc.mp4"))
        (fun _ => .ok scenarioExtractResult)) ∧
    (extract_video_frames (.ok ("/tmp/tmpabc.mp4"))
        (fun _ => .ok scenarioExtractResult) (fun _ => true)
        (fun _ => .ok ())).2 = true :=
  ⟨(extract_video_frames_cleanup (.ok ("/tmp/tmpabc.mp4"))
      (fun _ => .ok scenarioExtractResult) (fun _ => true)
      (fun _ => .ok ())).1,
   (extract_video_frames_cleanup (.ok ("/tmp/tmpabc.mp4"))
      (fun _ => .ok scenarioExtractResult) (fun _ => true)
      (fun _ => .ok ())).2 ("/tmp/tmpabc.mp4") rfl rfl rfl⟩

/-! ## Theorems about the health endpoint -/

/-- C10: with no detector registered, the health probe reports status
`"healthy"` with an empty model list. -/
theorem health_check_no_detector :
    health_check none = { status := "healthy", models := [] } := by
  rfl

end MLService
